import Mathlib

/-!
Verification of the task-orchestration core of the music-video orchestrator
(nevermined-io/music-video-orchestrator-a2a).

The development shallowly embeds the TypeScript sources:

* `src/models/task.ts`                     — task data model;
* `store/taskStore.ts`                     — in-memory task store with listeners;
* `tasks/taskQueue.ts`                     — bounded-concurrency task queue;
* `src/tasks/taskProcessor.ts`             — task processor and its status updates;
* `src/adapters/webSocketOrchestrationIO.ts` — the WebSocket-bound progress sink;
* `src/orchestrator.ts`                    — reentrant step engine and feedback handling;
* `src/adapters/websocketService.ts`       — the feedback path of the WebSocket binding
  (the tasks-send handler for an existing task id).

External collaborators (agent-card fetches, the generation agents, the LLM feedback
interpreter) are suspension points whose results are passed in as parameters, exactly
at the places the source awaits them.  JavaScript `Promise` code that can throw is
embedded with `Except String`; code with no throwing path is embedded as a total
function.  JavaScript timestamps (`new Date().toISOString()`) are passed in as
explicit `now` string parameters.
-/

namespace MVO

/-- TaskState enum from `src/models/task.ts` (submitted, working, input-required,
completed, cancelled, failed). -/
inductive TaskState
  | SUBMITTED
  | WORKING
  | INPUT_REQUIRED
  | COMPLETED
  | CANCELLED
  | FAILED
deriving DecidableEq, Repr

/-- Message part.  In the TypeScript the tag field is named `type` (task processor)
or `kind` (WebSocket adapter); no claim depends on the tag field's name, so both are
embedded as the single field `ptype`. -/
structure Part where
  ptype : String
  text : String
deriving DecidableEq, Repr

/-- A protocol message: `{ role, parts }`.  `messageId`/`kind` bookkeeping fields of
the WebSocket adapter's agent messages carry no claim-relevant content and are
omitted. -/
structure Message where
  role : String
  parts : List Part
deriving DecidableEq, Repr

/-- Task status snapshot `{ state, timestamp, message? }`. -/
structure TaskStatus where
  state : TaskState
  timestamp : String
  message : Option Message
deriving DecidableEq, Repr

/-- History entries are heterogeneous in the source: the WebSocket paths append
message objects, while `TaskProcessor.updateTaskStatus` appends the raw status
snapshot.  A status snapshot has no `role` field, so the `role === "user"` filter
in `handleUserFeedback` never selects it. -/
inductive HistoryItem
  | message (m : Message)
  | statusEntry (s : TaskStatus)
deriving DecidableEq, Repr

/-- The `msg.role === "user"` test of `handleUserFeedback`; `undefined === "user"`
is false for status snapshots. -/
def HistoryItem.isUser : HistoryItem → Bool
  | .message m => m.role = "user"
  | .statusEntry _ => false

/-- Task metadata.  The source's metadata is an open object; the fields the
orchestration core reads or writes are `currentStep` (possibly absent) and the
WebSocket adapter's `statusHistory`. -/
structure Metadata where
  currentStep : Option String
  statusHistory : List TaskStatus
deriving DecidableEq, Repr

/-- Task record from `src/models/task.ts`.  Artifacts are kept abstract as strings.
`message` is the initial inbound message (used only by `TaskProcessor.validateTask`);
tasks created by the WebSocket binding have none. -/
structure Task where
  id : String
  status : TaskStatus
  message : Option Message
  metadata : Metadata
  artifacts : List String
  history : List HistoryItem
deriving DecidableEq, Repr

/-! OrchestrationStep enum from `src/orchestrator.ts` — string values, in the
declared order. -/

namespace OrchestrationStep

def GENERATE_SONG : String := "generate_song"

def GENERATE_SCRIPT_AND_EXTRACT_ENTITIES : String := "generate_script_and_extract_entities"

def GENERATE_IMAGES : String := "generate_images"

def GENERATE_VIDEO_CLIPS : String := "generate_video_clips"

def COMPILE_AND_UPLOAD_VIDEO : String := "compile_and_upload_video"

def COMPLETED : String := "completed"

def FAILED : String := "failed"

/-- All enumerated OrchestrationStep values, in declaration order. -/
def values : List String :=
  [GENERATE_SONG, GENERATE_SCRIPT_AND_EXTRACT_ENTITIES, GENERATE_IMAGES,
   GENERATE_VIDEO_CLIPS, COMPILE_AND_UPLOAD_VIDEO, COMPLETED, FAILED]

/-- The five generation steps handled by the `handleUserFeedback` switch. -/
def generationSteps : List String :=
  [GENERATE_SONG, GENERATE_SCRIPT_AND_EXTRACT_ENTITIES, GENERATE_IMAGES,
   GENERATE_VIDEO_CLIPS, COMPILE_AND_UPLOAD_VIDEO]

/-- Direct successor in the fixed step order of the enum declaration (also the
accept-branch targets of `handleUserFeedback`). -/
def next (s : String) : Option String :=
  if s = GENERATE_SONG then some GENERATE_SCRIPT_AND_EXTRACT_ENTITIES
  else if s = GENERATE_SCRIPT_AND_EXTRACT_ENTITIES then some GENERATE_IMAGES
  else if s = GENERATE_IMAGES then some GENERATE_VIDEO_CLIPS
  else if s = GENERATE_VIDEO_CLIPS then some COMPILE_AND_UPLOAD_VIDEO
  else if s = COMPILE_AND_UPLOAD_VIDEO then some COMPLETED
  else none

end OrchestrationStep

/-- The terminal task states, as enumerated by the `isFinal` check of the
controller's status listener (`a2aController.ts`): COMPLETED, CANCELLED, FAILED. -/
def TaskState.isTerminal : TaskState → Bool
  | .COMPLETED => true
  | .CANCELLED => true
  | .FAILED => true
  | _ => false

/-! The task store, `store/taskStore.ts` (`TaskStore` class): a `Map<string, Task>`
plus a set of status listeners.  Listener callbacks cannot be compared for equality
in the embedding, so listeners are an abstract type `L` and a notification is the
pair of the listener and the task it receives. -/

/-- `Map.get`: first binding for the key, if any. -/
def mapGet : List (String × Task) → String → Option Task
  | [], _ => none
  | (k', v) :: rest, k => if k' = k then some v else mapGet rest k

/-- `Map.set`: replace the binding in place when the key exists, else append. -/
def mapSet : List (String × Task) → String → Task → List (String × Task)
  | [], k, v => [(k, v)]
  | (k', v') :: rest, k, v =>
      if k' = k then (k, v) :: rest else (k', v') :: mapSet rest k v

/-- TaskStore state: the `tasks` map and the registered status listeners. -/
structure TaskStore (L : Type) where
  tasks : List (String × Task)
  listeners : List L
deriving Repr

/-- A store with no tasks and no listeners. -/
def TaskStore.empty (L : Type) : TaskStore L := { tasks := [], listeners := [] }

/-- `notifyStatusListeners`: every registered listener receives the task. -/
def TaskStore.notifyStatusListeners (s : TaskStore L) (t : Task) : List (L × Task) :=
  s.listeners.map (fun l => (l, t))

/-- `TaskStore.createTask`: `this.tasks.set(task.id, task)`, notify all listeners,
return the task. -/
def TaskStore.createTask (s : TaskStore L) (t : Task) :
    TaskStore L × List (L × Task) × Task :=
  ({ s with tasks := mapSet s.tasks t.id t }, s.notifyStatusListeners t, t)

/-- `TaskStore.updateTask`: `this.tasks.set(task.id, task)`, notify all listeners,
return the task.  There is no existence check before the `set`. -/
def TaskStore.updateTask (s : TaskStore L) (t : Task) :
    TaskStore L × List (L × Task) × Task :=
  ({ s with tasks := mapSet s.tasks t.id t }, s.notifyStatusListeners t, t)

/-- `TaskStore.getTask`: `this.tasks.get(taskId) || null`. -/
def TaskStore.getTask (s : TaskStore L) (taskId : String) : Option Task :=
  mapGet s.tasks taskId

/-! The task queue, `tasks/taskQueue.ts` (`TaskQueue` class): a FIFO backlog
(`queue`), a `Set<string>` of ids considered processing (`processing`), and a
`maxConcurrent` bound.  `processTask(task).finally(...)` detaches the processor run;
the embedding records each started run in `running` (removed when it settles) and,
append-only, in `startedLog`; `nextExec` numbers the runs.  The `finally` callback —
delete the id from `processing`, then `processNextTasks()` — is the `finishExecution`
event. -/

structure QueueState where
  queue : List String
  processing : List String
  running : List (Nat × String)
  startedLog : List (Nat × String)
  nextExec : Nat
deriving DecidableEq, Repr

def QueueState.initial : QueueState :=
  { queue := [], processing := [], running := [], startedLog := [], nextExec := 0 }

/-- `Set.add`: no-op when the element is already present. -/
def setAdd (s : List String) (x : String) : List String :=
  if x ∈ s then s else s ++ [x]

/-- The body of `processNextTasks`: `for (let i = 0; i < availableSlots &&
this.queue.length > 0; i++) { shift; processing.add(id); start processTask }`.
`availableSlots` is fixed at entry; admission does not test whether the shifted
task's id is already in `processing`. -/
def admitLoop : Nat → QueueState → QueueState
  | 0, s => s
  | n + 1, s =>
      match s.queue with
      | [] => s
      | t :: rest =>
          admitLoop n
            { queue := rest
              processing := setAdd s.processing t
              running := s.running ++ [(s.nextExec, t)]
              startedLog := s.startedLog ++ [(s.nextExec, t)]
              nextExec := s.nextExec + 1 }

/-- `processNextTasks`: admit up to `maxConcurrent - processing.size` backlog
entries. -/
def processNextTasks (maxConcurrent : Nat) (s : QueueState) : QueueState :=
  admitLoop (maxConcurrent - s.processing.length) s

/-- `enqueueTask`: push onto the backlog, then `processNextTasks`. -/
def enqueueTask (maxConcurrent : Nat) (s : QueueState) (taskId : String) : QueueState :=
  processNextTasks maxConcurrent { s with queue := s.queue ++ [taskId] }

/-- The `.finally` continuation of a settled processor run (success or failure):
remove the run, `processing.delete(task.id)`, then `processNextTasks()`.  The queue
re-invokes nothing for a failed run: there is no retry loop in the class. -/
def finishExecution (maxConcurrent : Nat) (s : QueueState) (execId : Nat)
    (taskId : String) : QueueState :=
  processNextTasks maxConcurrent
    { s with
        running := s.running.filter (fun p => p.1 ≠ execId)
        processing := s.processing.filter (fun x => x ≠ taskId) }

/-- Queue-visible events: an `enqueueTask` call, or a processor run settling. -/
inductive QueueEvent
  | enq (taskId : String)
  | fin (execId : Nat) (taskId : String)
deriving DecidableEq, Repr

def applyEvent (maxConcurrent : Nat) (s : QueueState) : QueueEvent → QueueState
  | .enq t => enqueueTask maxConcurrent s t
  | .fin e t => finishExecution maxConcurrent s e t

/-- Run a sequence of queue events from the initial (empty) queue state. -/
def runEvents (maxConcurrent : Nat) (evs : List QueueEvent) : QueueState :=
  evs.foldl (applyEvent maxConcurrent) QueueState.initial

/-- Retry configuration passed to the `TaskQueue` constructor in
`tasks/taskContext.ts` (`maxRetries: 3`); the constructor declares no such
parameter and no code path consumes it. -/
def taskContextMaxRetries : Nat := 3

/-- Retry delay configured in `tasks/taskContext.ts` (`retryDelay: 1000`), likewise
consumed by no code path. -/
def taskContextRetryDelay : Nat := 1000

/-! The task processor, `src/tasks/taskProcessor.ts` (`TaskProcessor` class). -/

/-- JavaScript `String.prototype.trim`: strip leading and trailing whitespace. -/
def strTrim (s : String) : String :=
  ⟨((s.data.dropWhile Char.isWhitespace).reverse.dropWhile Char.isWhitespace).reverse⟩

/-- `TaskProcessor.validateTask`: throws when `task.message.parts` is missing or no
part is a text part with non-empty trimmed text.  Returns the thrown error text, or
`none` when validation passes. -/
def validateTask (task : Task) : Option String :=
  match task.message with
  | none => some "Task message is empty or invalid"
  | some m =>
      if (m.parts.filter (fun p => p.ptype = "text" && (strTrim p.text).length > 0)).length = 0
      then some "Task must contain a non-empty text prompt"
      else none

/-- `TaskProcessor.updateTaskStatus`: re-read the task from the store, throw
`Task <id> not found` when absent, else persist a copy with the new status, the
argument artifacts when given (`artifacts || currentTask.artifacts` — an empty
array is truthy and replaces), and the status snapshot appended to `history`. -/
def updateTaskStatus (store : TaskStore L) (task : Task) (state : TaskState)
    (message : Option Message) (artifacts : Option (List String)) (now : String) :
    Except String (TaskStore L) :=
  match mapGet store.tasks task.id with
  | none => .error ("Task " ++ task.id ++ " not found")
  | some currentTask =>
      let statusUpdate : TaskStatus := { state := state, timestamp := now, message := message }
      let updatedTask : Task :=
        { currentTask with
            status := statusUpdate
            artifacts := artifacts.getD currentTask.artifacts
            history := currentTask.history ++ [HistoryItem.statusEntry statusUpdate] }
      .ok (TaskStore.updateTask store updatedTask).1

/-- The catch branch of `TaskProcessor.processTask`: mark the task FAILED with the
error text as the status message, then rethrow the original error.  Should the
status update itself throw (task vanished), that error propagates instead. -/
def processTaskFailurePath (store : TaskStore L) (task : Task) (errText : String)
    (now : String) : TaskStore L × Option String :=
  match updateTaskStatus store task TaskState.FAILED
      (some { role := "agent", parts := [{ ptype := "text", text := errText }] })
      none now with
  | .ok s' => (s', some errText)
  | .error e2 => (store, some e2)

/-- `TaskProcessor.processTask`: validate, then run the orchestration
(`startOrchestration`, a store transformer that may leave an error — passed in as
the parameter `orchestrate`, since it suspends on external collaborators); on any
thrown error, mark FAILED and rethrow.  The returned `Option String` is the error
the promise rejects with, if any. -/
def processTask (store : TaskStore L) (task : Task) (now : String)
    (orchestrate : TaskStore L → TaskStore L × Option String) :
    TaskStore L × Option String :=
  match validateTask task with
  | some verr => processTaskFailurePath store task verr now
  | none =>
      match orchestrate store with
      | (s', none) => (s', none)
      | (s', some e) => processTaskFailurePath s' task e now

/-! The Orchestration I/O port.  `OrchestrationProgress` is the domain object from
`src/interfaces/orchestrationIO.ts`; `metadata` is an open object of which only a
`currentStep` override is claim-relevant, modelled by `MetadataPatch`. -/

/-- The claim-relevant content of an `OrchestrationProgress.metadata` object: the
`currentStep` key, when present. -/
structure MetadataPatch where
  currentStep : Option String
deriving DecidableEq, Repr

/-- OrchestrationProgress `{ state, text, artifacts?, metadata? }`. -/
structure OrchestrationProgress where
  state : TaskState
  text : String
  artifacts : Option (List String)
  metadata : Option MetadataPatch
deriving DecidableEq, Repr

/-- `WebSocketOrchestrationIO.onProgress` (`src/adapters/webSocketOrchestrationIO.ts`):
re-read the task by id; `if (!task) return;` — an absent task makes the call return
with no store write and no error (the function has no throwing path, so it is
embedded as a total store transformer).  Otherwise persist a copy with the new
status, `progress.artifacts || task.artifacts` (an empty array is truthy and
replaces), the agent message (built only when `progress.text` is non-empty) appended
to `history`, and metadata merged from the progress update with the status snapshot
appended to `statusHistory`.  `wsUpdatedTask` is the `updatedTask` record built in
the method body. -/
def wsUpdatedTask (task : Task) (p : OrchestrationProgress) (now : String) : Task :=
  let msg : Option Message :=
    if p.text = "" then none
    else some { role := "agent", parts := [{ ptype := "text", text := p.text }] }
  let statusUpdate : TaskStatus := { state := p.state, timestamp := now, message := msg }
  let newCurrentStep : Option String :=
    match p.metadata with
    | none => task.metadata.currentStep
    | some patch =>
        match patch.currentStep with
        | some s => some s
        | none => task.metadata.currentStep
  { task with
      status := statusUpdate
      artifacts := p.artifacts.getD task.artifacts
      history :=
        match msg with
        | some m => task.history ++ [HistoryItem.message m]
        | none => task.history
      metadata :=
        { currentStep := newCurrentStep
          statusHistory := task.metadata.statusHistory ++ [statusUpdate] } }

/-- The control flow of `WebSocketOrchestrationIO.onProgress`: re-read the task and
return the store unchanged when it is absent, else persist `wsUpdatedTask` via the
store's `updateTask`. -/
def wsOnProgress (store : TaskStore L) (taskId : String) (p : OrchestrationProgress)
    (now : String) : TaskStore L :=
  match mapGet store.tasks taskId with
  | none => store
  | some task => (TaskStore.updateTask store (wsUpdatedTask task p now)).1

/-! The reentrant step engine, `src/orchestrator.ts`. -/

/-- Which branch the `continueOrchestration` switch takes for a given
`metadata.currentStep`.  Only the GENERATE_SONG and
GENERATE_SCRIPT_AND_EXTRACT_ENTITIES cases are live in the source; the cases for
the remaining steps are commented out, so every other value — enumerated or not —
falls through to `default`, which throws the unknown-step error. -/
inductive DispatchResult
  | song
  | script
  | unknownStep (step : Option String)
deriving DecidableEq, Repr

/-- Branch selection of `continueOrchestration` on `task.metadata?.currentStep`. -/
def continueOrchestrationBranch (step : Option String) : DispatchResult :=
  if step = some OrchestrationStep.GENERATE_SONG then .song
  else if step = some OrchestrationStep.GENERATE_SCRIPT_AND_EXTRACT_ENTITIES then .script
  else .unknownStep step

/-- The error text thrown by the `default` case of `continueOrchestration`
(template interpolation renders an absent step as `undefined`). -/
def unknownStepMessage (step : Option String) : String :=
  "Unknown orchestration step: " ++ (match step with | some v => v | none => "undefined")

/-- The structured decision returned by the external LLM feedback interpreter
(`interpretUserFeedbackWithLLM`): an action string and an optional synthesized
input. -/
structure FeedbackDecision where
  action : String
  newInput : Option String
deriving DecidableEq, Repr

/-- A `continueOrchestration(task, io, overrideInput?)` invocation requested by
`handleUserFeedback`: the step it will dispatch on (the task's `currentStep` at call
time) and the override input, if any. -/
structure DispatchCall where
  step : Option String
  overrideInput : Option String
deriving DecidableEq, Repr

/-- `handleUserFeedback` (`src/orchestrator.ts`): locate the most recent
`role === "user"` history entry (throwing when none exists), obtain the interpreter
decision (external; passed in as `decision`), then branch on
`task.metadata?.currentStep`: on `accept` mutate `currentStep` to the hard-coded
next step and re-dispatch; on `retry`/`modify` re-dispatch the same step with
`decision.newInput` as override; on any other action fall through the if/else-if
with no else — no mutation and no dispatch.  The `default` case (a `currentStep`
outside the five handled steps) re-dispatches unconditionally without advancing.
The result pairs the (possibly mutated) task with the requested dispatch, if any. -/
def handleUserFeedback (task : Task) (decision : FeedbackDecision) :
    Except String (Task × Option DispatchCall) :=
  match (task.history.filter HistoryItem.isUser).getLast? with
  | none => .error "No user message found in history for LLM feedback interpretation."
  | some _ =>
      let step := task.metadata.currentStep
      let acceptTo (nextStep : String) : Task × Option DispatchCall :=
        let t' : Task := { task with metadata := { task.metadata with currentStep := some nextStep } }
        (t', some { step := t'.metadata.currentStep, overrideInput := none })
      let redo : Task × Option DispatchCall :=
        (task, some { step := task.metadata.currentStep, overrideInput := decision.newInput })
      if step = some OrchestrationStep.GENERATE_SONG then
        if decision.action = "accept" then
          .ok (acceptTo OrchestrationStep.GENERATE_SCRIPT_AND_EXTRACT_ENTITIES)
        else if decision.action = "retry" ∨ decision.action = "modify" then .ok redo
        else .ok (task, none)
      else if step = some OrchestrationStep.GENERATE_SCRIPT_AND_EXTRACT_ENTITIES then
        if decision.action = "accept" then
          .ok (acceptTo OrchestrationStep.GENERATE_IMAGES)
        else if decision.action = "retry" ∨ decision.action = "modify" then .ok redo
        else .ok (task, none)
      else if step = some OrchestrationStep.GENERATE_IMAGES then
        if decision.action = "accept" then
          .ok (acceptTo OrchestrationStep.GENERATE_VIDEO_CLIPS)
        else if decision.action = "retry" ∨ decision.action = "modify" then .ok redo
        else .ok (task, none)
      else if step = some OrchestrationStep.GENERATE_VIDEO_CLIPS then
        if decision.action = "accept" then
          .ok (acceptTo OrchestrationStep.COMPILE_AND_UPLOAD_VIDEO)
        else if decision.action = "retry" ∨ decision.action = "modify" then .ok redo
        else .ok (task, none)
      else if step = some OrchestrationStep.COMPILE_AND_UPLOAD_VIDEO then
        if decision.action = "accept" then
          .ok (acceptTo OrchestrationStep.COMPLETED)
        else if decision.action = "retry" ∨ decision.action = "modify" then .ok redo
        else .ok (task, none)
      else
        .ok (task, some { step := task.metadata.currentStep, overrideInput := none })

/-- `stepGenerateScriptAndExtractEntities` (`src/orchestrator.ts`), run against the
WebSocket-bound I/O (`wsOnProgress` on the task's id).  The collaborator results —
the script result's artifacts and the three entity-extraction arrays' lengths — are
parameters, as are the three status timestamps.  The step emits WORKING with empty
artifacts, WORKING with the script artifacts, mutates the in-memory task
(`currentStep := GENERATE_IMAGES`, artifacts appended), then emits INPUT_REQUIRED
with the script artifacts and a metadata patch carrying GENERATE_IMAGES.  Returns
the mutated in-memory task and the store after the three progress writes. -/
def stepGenerateScriptAndExtractEntities (task : Task) (store : TaskStore L)
    (scriptArtifacts : List String) (numCharacters numSettings numScenes : Nat)
    (now1 now2 now3 : String) : Task × TaskStore L :=
  let store1 := wsOnProgress store task.id
    { state := TaskState.WORKING, text := "Generating script...",
      artifacts := some [], metadata := none } now1
  let store2 := wsOnProgress store1 task.id
    { state := TaskState.WORKING,
      text := "Script generated. Extracting characters, settings, and scenes...",
      artifacts := some scriptArtifacts, metadata := none } now2
  let task' : Task :=
    { task with
        metadata := { task.metadata with currentStep := some OrchestrationStep.GENERATE_IMAGES }
        artifacts := task.artifacts ++ scriptArtifacts }
  let store3 := wsOnProgress store2 task.id
    { state := TaskState.INPUT_REQUIRED,
      text := "Extracted " ++ toString numCharacters ++ " characters, "
        ++ toString numSettings ++ " settings, and " ++ toString numScenes
        ++ " scenes. Ready to generate images.",
      artifacts := some scriptArtifacts,
      metadata := some { currentStep := some OrchestrationStep.GENERATE_IMAGES } } now3
  (task', store3)

/-! The feedback path of the WebSocket binding, `src/adapters/websocketService.ts`,
CASE 2 of the `tasks/send` handler: input for an existing task id. -/

/-- The JSON-RPC reply sent back for CASE 2. -/
inductive WsReply
  | taskNotFound
  | inputProcessed
  | failedToProcess (details : String)
deriving DecidableEq, Repr

/-- CASE 2 of the WebSocket `tasks/send` handler: load the task (error `-32000`
when absent, no store write), append the inbound message to its history, persist via
`updateTask`, then run `handleUserFeedback`; any error thrown there — including the
unknown-step error from the dispatch — is caught and answered with `-32001`, with
the history append already persisted.  No check of the task's (possibly terminal)
status state is made at any point.  A live dispatch (`song`/`script`) runs the step
body, whose collaborator-dependent effect is the parameter `runStep` (a store
transformer that may leave an error). -/
def handleTasksSendExisting (store : TaskStore L) (taskId : String)
    (messageObj : Message) (decision : FeedbackDecision)
    (runStep : Task → Option String → TaskStore L → TaskStore L × Option String) :
    TaskStore L × WsReply :=
  match mapGet store.tasks taskId with
  | none => (store, .taskNotFound)
  | some task =>
      let task1 : Task := { task with history := task.history ++ [HistoryItem.message messageObj] }
      let store1 := (TaskStore.updateTask store task1).1
      match handleUserFeedback task1 decision with
      | .error e => (store1, .failedToProcess e)
      | .ok (_, none) => (store1, .inputProcessed)
      | .ok (t', some call) =>
          match continueOrchestrationBranch call.step with
          | .unknownStep s => (store1, .failedToProcess (unknownStepMessage s))
          | _ =>
              match runStep t' call.overrideInput store1 with
              | (store2, none) => (store2, .inputProcessed)
              | (store2, some e) => (store2, .failedToProcess e)

/-! Helper lemmas shared by the claim theorems. -/

theorem mapSet_get_self (m : List (String × Task)) (k : String) (v : Task) :
    mapGet (mapSet m k v) k = some v := by
  induction m with
  | nil => simp [mapSet, mapGet]
  | cons p rest ih =>
      obtain ⟨k', v'⟩ := p
      by_cases h : k' = k
      · simp [mapSet, mapGet, h]
      · simp [mapSet, mapGet, h, ih]

theorem admitLoop_nil (n : Nat) (s : QueueState) (h : s.queue = []) :
    admitLoop n s = s := by
  cases n with
  | zero => rfl
  | succ k => simp [admitLoop, h]

theorem setAdd_length_le (s : List String) (x : String) :
    (setAdd s x).length ≤ s.length + 1 := by
  unfold setAdd
  split
  · exact Nat.le_succ _
  · simp

theorem admitLoop_processing_le (n : Nat) (s : QueueState) :
    (admitLoop n s).processing.length ≤ s.processing.length + n := by
  induction n generalizing s with
  | zero => simp [admitLoop]
  | succ k ih =>
      cases hq : s.queue with
      | nil => simp [admitLoop, hq]
      | cons t rest =>
          have hstep : (admitLoop k
              { queue := rest
                processing := setAdd s.processing t
                running := s.running ++ [(s.nextExec, t)]
                startedLog := s.startedLog ++ [(s.nextExec, t)]
                nextExec := s.nextExec + 1 }).processing.length
              ≤ (setAdd s.processing t).length + k := ih _
          have hadd := setAdd_length_le s.processing t
          simp only [admitLoop, hq]
          omega

theorem processNextTasks_processing_le (maxConcurrent : Nat) (s : QueueState)
    (h : s.processing.length ≤ maxConcurrent) :
    (processNextTasks maxConcurrent s).processing.length ≤ maxConcurrent := by
  have := admitLoop_processing_le (maxConcurrent - s.processing.length) s
  unfold processNextTasks
  omega

theorem applyEvent_processing_le (maxConcurrent : Nat) (s : QueueState)
    (e : QueueEvent) (h : s.processing.length ≤ maxConcurrent) :
    (applyEvent maxConcurrent s e).processing.length ≤ maxConcurrent := by
  cases e with
  | enq t =>
      exact processNextTasks_processing_le maxConcurrent _ h
  | fin ex t =>
      refine processNextTasks_processing_le maxConcurrent _ ?_
      calc (s.processing.filter (fun x => x ≠ t)).length
          ≤ s.processing.length := List.length_filter_le _ _
        _ ≤ maxConcurrent := h

theorem foldl_processing_le (maxConcurrent : Nat) (evs : List QueueEvent)
    (s : QueueState) (h : s.processing.length ≤ maxConcurrent) :
    (evs.foldl (applyEvent maxConcurrent) s).processing.length ≤ maxConcurrent := by
  induction evs generalizing s with
  | nil => simpa using h
  | cons e rest ih =>
      exact ih _ (applyEvent_processing_le maxConcurrent s e h)

/-! Claim theorems. -/

/-- C10: `TaskStore.createTask` and `TaskStore.updateTask` are extensionally equal —
each unconditionally stores the task under `task.id` (overwriting any existing
record), notifies every registered status listener, and returns the task; in
particular `createTask` on a duplicate id never raises a DuplicateTask error. -/
theorem taskStore_createTask_eq_updateTask :
    (∀ (L : Type) (s : TaskStore L) (t : Task),
        TaskStore.createTask s t = TaskStore.updateTask s t)
    ∧ (∀ (L : Type) (s : TaskStore L) (t : Task),
        mapGet (TaskStore.createTask s t).1.tasks t.id = some t
        ∧ (TaskStore.createTask s t).2.1 = s.listeners.map (fun l => (l, t))
        ∧ (TaskStore.createTask s t).2.2 = t) :=
  ⟨fun _ _ _ => rfl,
   fun _ s t => ⟨mapSet_get_self s.tasks t.id t, rfl, rfl⟩⟩

/-- C8 counterexample: `updateTask` on an empty store, for a task id that is not
stored, succeeds and inserts the record — it does not fail with TaskNotFound. -/
theorem taskStore_updateTask_missing_id_inserts_cex :
    mapGet (TaskStore.updateTask (TaskStore.empty Unit)
        { id := "t1"
          status := { state := TaskState.SUBMITTED, timestamp := "ts0", message := none }
          message := none
          metadata := { currentStep := none, statusHistory := [] }
          artifacts := []
          history := [] }).1.tasks "t1"
      = some
        { id := "t1"
          status := { state := TaskState.SUBMITTED, timestamp := "ts0", message := none }
          message := none
          metadata := { currentStep := none, statusHistory := [] }
          artifacts := []
          history := [] } := by
  rfl

/-- C8 (amended): `updateTask(task)` unconditionally stores the record under
`task.id` — replacing it when present and inserting it when absent — then notifies
listeners and returns the task; it never fails with TaskNotFound. -/
theorem taskStore_updateTask_upserts :
    ∀ (L : Type) (s : TaskStore L) (t : Task),
      mapGet (TaskStore.updateTask s t).1.tasks t.id = some t
      ∧ (TaskStore.updateTask s t).2.1 = s.listeners.map (fun l => (l, t))
      ∧ (TaskStore.updateTask s t).2.2 = t :=
  fun _ s t => ⟨mapSet_get_self s.tasks t.id t, rfl, rfl⟩

/-- C7 counterexample: `generate_images` is an enumerated OrchestrationStep value,
yet the dispatcher raises the unknown-step error for it (its case is commented
out). -/
theorem continueOrchestration_enumerated_step_error_cex :
    OrchestrationStep.GENERATE_IMAGES ∈ OrchestrationStep.values
    ∧ continueOrchestrationBranch (some OrchestrationStep.GENERATE_IMAGES)
        = DispatchResult.unknownStep (some OrchestrationStep.GENERATE_IMAGES) := by
  constructor
  · simp [OrchestrationStep.values]
  · rfl

/-- C7 (amended): the dispatcher raises the unknown-step error for every
`currentStep` value other than `generate_song` and
`generate_script_and_extract_entities` — including the other enumerated step
values, whose cases are commented out — and executes without that error exactly for
those two values. -/
theorem continueOrchestration_unknown_iff :
    ∀ step : Option String,
      continueOrchestrationBranch step = DispatchResult.unknownStep step
        ↔ ¬(step = some OrchestrationStep.GENERATE_SONG
            ∨ step = some OrchestrationStep.GENERATE_SCRIPT_AND_EXTRACT_ENTITIES) := by
  intro step
  unfold continueOrchestrationBranch
  split_ifs with h1 h2 <;> simp_all

/-- C5 counterexample: the WebSocket-bound `onProgress`, called for a task id absent
from the store, returns with the store unchanged — the update is silently dropped
and no error is surfaced (the function has no failure channel at all). -/
theorem wsOnProgress_missing_task_silent_cex :
    wsOnProgress (TaskStore.empty Unit) "t1"
        { state := TaskState.WORKING, text := "Generating song...",
          artifacts := some [], metadata := none } "ts1"
      = TaskStore.empty Unit := by
  rfl

/-- C5 (amended): when the task is absent from the store, the TaskProcessor-bound
I/O's `updateTaskStatus` rejects with `Task <id> not found`, but the
WebSocket-bound `onProgress` returns successfully with the store unchanged,
silently dropping the progress update. -/
theorem onProgress_missing_task_behavior :
    ∀ (L : Type) (store : TaskStore L) (tid : String) (p : OrchestrationProgress)
      (now : String) (task : Task) (st : TaskState) (msg : Option Message)
      (arts : Option (List String)),
      mapGet store.tasks tid = none →
      task.id = tid →
      wsOnProgress store tid p now = store
      ∧ updateTaskStatus store task st msg arts now
          = .error ("Task " ++ tid ++ " not found") := by
  intro L store tid p now task st msg arts hnone hid
  constructor
  · unfold wsOnProgress
    rw [hnone]
  · unfold updateTaskStatus
    rw [hid, hnone]

/-- C5 witness: the amended theorem applied at the empty store and a concrete task
with id `t1`. -/
theorem onProgress_missing_task_behavior_witness :
    mapGet (TaskStore.empty Unit).tasks "t1" = none
    ∧ (({ id := "t1"
          status := { state := TaskState.WORKING, timestamp := "ts0", message := none }
          message := none
          metadata := { currentStep := none, statusHistory := [] }
          artifacts := []
          history := [] } : Task)).id = "t1"
    ∧ (wsOnProgress (TaskStore.empty Unit) "t1"
          { state := TaskState.WORKING, text := "x", artifacts := none, metadata := none }
          "ts1"
        = TaskStore.empty Unit
      ∧ updateTaskStatus (TaskStore.empty Unit)
          { id := "t1"
            status := { state := TaskState.WORKING, timestamp := "ts0", message := none }
            message := none
            metadata := { currentStep := none, statusHistory := [] }
            artifacts := []
            history := [] }
          TaskState.FAILED none none "ts1"
        = .error ("Task " ++ "t1" ++ " not found")) :=
  ⟨rfl, rfl,
   onProgress_missing_task_behavior Unit (TaskStore.empty Unit) "t1"
     { state := TaskState.WORKING, text := "x", artifacts := none, metadata := none }
     "ts1"
     { id := "t1"
       status := { state := TaskState.WORKING, timestamp := "ts0", message := none }
       message := none
       metadata := { currentStep := none, statusHistory := [] }
       artifacts := []
       history := [] }
     TaskState.FAILED none none rfl rfl⟩

/-- C9 counterexample: with `maxConcurrent = 2`, enqueueing the same task id twice
puts two processor executions for that id in flight at the same time — the
per-id `processing` set does not gate admission. -/
theorem queue_duplicate_id_concurrent_cex :
    (runEvents 2 [QueueEvent.enq "A", QueueEvent.enq "A"]).running = [(0, "A"), (1, "A")]
    ∧ ((runEvents 2 [QueueEvent.enq "A", QueueEvent.enq "A"]).running.filter
        (fun p => p.2 = "A")).length = 2 := by
  constructor <;> rfl

/-- C9 (amended): the queue keeps at most `maxConcurrent` entries in its
`processing` id set across any sequence of enqueue/settle events, but it does not
prevent two concurrent executions of one task id when that id is enqueued more
than once. -/
theorem queue_processing_bounded :
    ∀ (maxConcurrent : Nat) (evs : List QueueEvent),
      (runEvents maxConcurrent evs).processing.length ≤ maxConcurrent := by
  intro maxConcurrent evs
  exact foldl_processing_le maxConcurrent evs QueueState.initial (Nat.zero_le _)

/-- C2: the `TaskQueue` starts the processor exactly once per enqueued task and,
when that single run fails, never re-invokes it — one total attempt, not
`maxRetries + 1`; the FAILED marking (with the failure reason as the status
message) comes from `TaskProcessor.processTask`'s own catch block in that same
single attempt. -/
theorem queue_single_attempt_no_retry :
    (((finishExecution 2 (enqueueTask 2 QueueState.initial "A") 0 "A").startedLog.filter
        (fun p => p.2 = "A")).length = 1
      ∧ (finishExecution 2 (enqueueTask 2 QueueState.initial "A") 0 "A").queue = [])
    ∧ (1 : Nat) ≠ taskContextMaxRetries + 1
    ∧ (let sampleTask : Task :=
         { id := "t1"
           status := { state := TaskState.SUBMITTED, timestamp := "ts0", message := none }
           message := some
             { role := "user"
               parts := [{ ptype := "text",
                           text := "A cyberpunk rap anthem about AI collaboration" }] }
           metadata := { currentStep := none, statusHistory := [] }
           artifacts := []
           history := [] }
       let store0 := (TaskStore.createTask (TaskStore.empty Unit) sampleTask).1
       let res := processTask store0 sampleTask "ts1"
         (fun st => (st, some "Collaborator call failed"))
       res.2 = some "Collaborator call failed"
       ∧ (mapGet res.1.tasks "t1").map (fun t => (t.status.state, t.status.message))
           = some (TaskState.FAILED,
               some
                 { role := "agent"
                   parts := [{ ptype := "text", text := "Collaborator call failed" }] })) := by
  exact ⟨⟨by decide, by decide⟩, by decide, by decide, by decide⟩

/-- C1 counterexample: at `currentStep = generate_song`, an interpreter action that
is neither accept nor retry nor modify (here `"reject"`) leaves the task unchanged
and requests no dispatch — it is not treated as accept (which would advance to
`generate_script_and_extract_entities` and dispatch it). -/
theorem handleUserFeedback_unknown_action_cex :
    (let c : Task :=
       { id := "t1"
         status := { state := TaskState.INPUT_REQUIRED, timestamp := "ts0", message := none }
         message := none
         metadata := { currentStep := some OrchestrationStep.GENERATE_SONG, statusHistory := [] }
         artifacts := ["song0"]
         history := [HistoryItem.message
           { role := "user", parts := [{ ptype := "text", text := "make a song" }] }] }
     handleUserFeedback c { action := "reject", newInput := none } = Except.ok (c, none))
    ∧ some OrchestrationStep.GENERATE_SONG
        ≠ some OrchestrationStep.GENERATE_SCRIPT_AND_EXTRACT_ENTITIES := by
  exact ⟨by rfl, by decide⟩

/-- C1 (amended): for every task whose `metadata.currentStep` is one of the five
generation steps, an interpreter action that is none of accept/retry/modify falls
through the if/else-if with no else branch: `metadata.currentStep` is left
unchanged and the step dispatcher is not invoked. -/
theorem handleUserFeedback_unknown_action_noop :
    ∀ (task : Task) (d : FeedbackDecision) (m : HistoryItem) (S : String),
      (task.history.filter HistoryItem.isUser).getLast? = some m →
      task.metadata.currentStep = some S →
      S ∈ OrchestrationStep.generationSteps →
      d.action ≠ "accept" → d.action ≠ "retry" → d.action ≠ "modify" →
      handleUserFeedback task d = Except.ok (task, none) := by
  intro task d m S hm hstep hS ha hr hmod
  simp only [OrchestrationStep.generationSteps, List.mem_cons,
    List.not_mem_nil, or_false] at hS
  rcases hS with rfl | rfl | rfl | rfl | rfl <;>
    simp [handleUserFeedback, hm, hstep, ha, hr, hmod,
      OrchestrationStep.GENERATE_SONG, OrchestrationStep.GENERATE_SCRIPT_AND_EXTRACT_ENTITIES,
      OrchestrationStep.GENERATE_IMAGES, OrchestrationStep.GENERATE_VIDEO_CLIPS,
      OrchestrationStep.COMPILE_AND_UPLOAD_VIDEO]

/-- C1 witness: the amended theorem applied at a concrete task parked at
`generate_images` and the unrecognized action `"skip"`. -/
theorem handleUserFeedback_unknown_action_noop_witness :
    (let c : Task :=
       { id := "t1"
         status := { state := TaskState.INPUT_REQUIRED, timestamp := "ts0", message := none }
         message := none
         metadata := { currentStep := some OrchestrationStep.GENERATE_IMAGES, statusHistory := [] }
         artifacts := []
         history := [HistoryItem.message
           { role := "user", parts := [{ ptype := "text", text := "ok" }] }] }
     (c.history.filter HistoryItem.isUser).getLast?
         = some (HistoryItem.message
             { role := "user", parts := [{ ptype := "text", text := "ok" }] })
     ∧ c.metadata.currentStep = some OrchestrationStep.GENERATE_IMAGES
     ∧ OrchestrationStep.GENERATE_IMAGES ∈ OrchestrationStep.generationSteps
     ∧ ("skip" : String) ≠ "accept" ∧ ("skip" : String) ≠ "retry" ∧ ("skip" : String) ≠ "modify"
     ∧ handleUserFeedback c { action := "skip", newInput := none } = Except.ok (c, none)) := by
  refine ⟨by rfl, by rfl, by decide, by decide, by decide, by decide, ?_⟩
  exact handleUserFeedback_unknown_action_noop _ _ _ _ rfl rfl (by decide)
    (by decide) (by decide) (by decide)

/-- C3 (amended): supplying an `accept` decision when `metadata.currentStep` is one
of the five generation steps advances `currentStep` to its direct successor in the
enum order and dispatches that successor.  (The claim's further assertion — that the
generation work running next is always the direct successor of the step whose
output was accepted — fails, because the script step records `generate_images` as
`currentStep` before parking; see the counterexample.) -/
theorem handleUserFeedback_accept_advances :
    ∀ (task : Task) (d : FeedbackDecision) (m : HistoryItem) (S : String),
      (task.history.filter HistoryItem.isUser).getLast? = some m →
      task.metadata.currentStep = some S →
      S ∈ OrchestrationStep.generationSteps →
      d.action = "accept" →
      handleUserFeedback task d
        = Except.ok
            ({ task with metadata :=
                { task.metadata with currentStep := OrchestrationStep.next S } },
             some { step := OrchestrationStep.next S, overrideInput := none }) := by
  intro task d m S hm hstep hS ha
  simp only [OrchestrationStep.generationSteps, List.mem_cons,
    List.not_mem_nil, or_false] at hS
  rcases hS with rfl | rfl | rfl | rfl | rfl <;>
    simp [handleUserFeedback, OrchestrationStep.next, hm, hstep, ha,
      OrchestrationStep.GENERATE_SONG, OrchestrationStep.GENERATE_SCRIPT_AND_EXTRACT_ENTITIES,
      OrchestrationStep.GENERATE_IMAGES, OrchestrationStep.GENERATE_VIDEO_CLIPS,
      OrchestrationStep.COMPILE_AND_UPLOAD_VIDEO, OrchestrationStep.COMPLETED]

/-- C3 witness: the amended theorem applied at a concrete task parked at
`generate_song` with an accept decision, advancing to
`generate_script_and_extract_entities`. -/
theorem handleUserFeedback_accept_advances_witness :
    (let c : Task :=
       { id := "t1"
         status := { state := TaskState.INPUT_REQUIRED, timestamp := "ts0", message := none }
         message := none
         metadata := { currentStep := some OrchestrationStep.GENERATE_SONG, statusHistory := [] }
         artifacts := ["song0"]
         history := [HistoryItem.message
           { role := "user", parts := [{ ptype := "text", text := "great" }] }] }
     (c.history.filter HistoryItem.isUser).getLast?
         = some (HistoryItem.message
             { role := "user", parts := [{ ptype := "text", text := "great" }] })
     ∧ c.metadata.currentStep = some OrchestrationStep.GENERATE_SONG
     ∧ OrchestrationStep.GENERATE_SONG ∈ OrchestrationStep.generationSteps
     ∧ ("accept" : String) = "accept"
     ∧ handleUserFeedback c { action := "accept", newInput := none }
         = Except.ok
             ({ c with metadata :=
                 { c.metadata with
                     currentStep := OrchestrationStep.next OrchestrationStep.GENERATE_SONG } },
              some { step := OrchestrationStep.next OrchestrationStep.GENERATE_SONG,
                     overrideInput := none })) := by
  refine ⟨by rfl, by rfl, by decide, rfl, ?_⟩
  exact handleUserFeedback_accept_advances _ _ _ _ rfl rfl (by decide) rfl

/-- C3 counterexample: after the script step completes, the persisted task is
parked at `currentStep = generate_images` (the step pre-advances before pausing),
so accepting the script output dispatches `generate_video_clips` — not
`generate_images`, the direct successor of the script step whose output was just
accepted.  The images step's generation work is skipped. -/
theorem scriptStep_accept_skips_images_cex :
    (let c : Task :=
       { id := "t1"
         status := { state := TaskState.INPUT_REQUIRED, timestamp := "ts0", message := none }
         message := none
         metadata := { currentStep := some OrchestrationStep.GENERATE_SCRIPT_AND_EXTRACT_ENTITIES
                       statusHistory := [] }
         artifacts := ["song0"]
         history := [HistoryItem.message
           { role := "user", parts := [{ ptype := "text", text := "make a song" }] }] }
     let store0 := (TaskStore.createTask (TaskStore.empty Unit) c).1
     let parked := mapGet
       (stepGenerateScriptAndExtractEntities c store0 ["script0"] 2 3 4 "ts1" "ts2" "ts3").2.tasks
       "t1"
     parked.map (fun t => t.metadata.currentStep)
         = some (some OrchestrationStep.GENERATE_IMAGES)
     ∧ parked.map (fun t =>
           (handleUserFeedback t { action := "accept", newInput := none }).map
             (fun r => r.2.map (fun dc => dc.step)))
         = some (Except.ok (some (some OrchestrationStep.GENERATE_VIDEO_CLIPS))))
    ∧ OrchestrationStep.next OrchestrationStep.GENERATE_SCRIPT_AND_EXTRACT_ENTITIES
        = some OrchestrationStep.GENERATE_IMAGES
    ∧ some OrchestrationStep.GENERATE_VIDEO_CLIPS ≠ some OrchestrationStep.GENERATE_IMAGES := by
  exact ⟨⟨by rfl, by rfl⟩, by rfl, by decide⟩

/-- When the task is found in the store under its own id, a `wsOnProgress` call
persists exactly `wsUpdatedTask` under that id. -/
theorem wsOnProgress_get (store : TaskStore L) (tid : String) (t0 : Task)
    (p : OrchestrationProgress) (now : String)
    (h : mapGet store.tasks tid = some t0) (hid : t0.id = tid) :
    mapGet (wsOnProgress store tid p now).tasks tid = some (wsUpdatedTask t0 p now)
    ∧ (wsUpdatedTask t0 p now).id = tid := by
  constructor
  · unfold wsOnProgress
    rw [h]
    show mapGet (mapSet store.tasks (wsUpdatedTask t0 p now).id (wsUpdatedTask t0 p now)) tid
      = some (wsUpdatedTask t0 p now)
    have hx : (wsUpdatedTask t0 p now).id = tid := hid
    rw [hx]
    exact mapSet_get_self _ _ _
  · exact hid

/-- C6 (amended): the script step appends the script artifacts to the in-memory
task object, but every progress update it emits persists `progress.artifacts` in
place of the stored record's artifacts (the first WORKING update already persists
an empty array), so after the step the persisted record's artifacts are exactly the
script artifacts — prior artifacts such as the accepted song are dropped from the
persisted record — and its `currentStep` is `generate_images`. -/
theorem scriptStep_replaces_persisted_artifacts :
    ∀ (L : Type) (store : TaskStore L) (task t0 : Task) (scriptArtifacts : List String)
      (nc ns nsc : Nat) (n1 n2 n3 : String),
      mapGet store.tasks task.id = some t0 →
      t0.id = task.id →
      (stepGenerateScriptAndExtractEntities task store scriptArtifacts nc ns nsc n1 n2 n3).1.artifacts
          = task.artifacts ++ scriptArtifacts
      ∧ (mapGet (stepGenerateScriptAndExtractEntities task store scriptArtifacts nc ns nsc n1 n2 n3).2.tasks
            task.id).map (fun t => (t.artifacts, t.metadata.currentStep))
          = some (scriptArtifacts, some OrchestrationStep.GENERATE_IMAGES) := by
  intro L store task t0 scriptArtifacts nc ns nsc n1 n2 n3 h hid
  have g1 := wsOnProgress_get store task.id t0
    { state := TaskState.WORKING, text := "Generating script...",
      artifacts := some [], metadata := none } n1 h hid
  have g2 := wsOnProgress_get _ task.id _
    { state := TaskState.WORKING,
      text := "Script generated. Extracting characters, settings, and scenes...",
      artifacts := some scriptArtifacts, metadata := none } n2 g1.1 g1.2
  have g3 := wsOnProgress_get _ task.id _
    { state := TaskState.INPUT_REQUIRED,
      text := "Extracted " ++ toString nc ++ " characters, " ++ toString ns
        ++ " settings, and " ++ toString nsc ++ " scenes. Ready to generate images.",
      artifacts := some scriptArtifacts,
      metadata := some { currentStep := some OrchestrationStep.GENERATE_IMAGES } } n3 g2.1 g2.2
  refine ⟨rfl, ?_⟩
  show (mapGet (wsOnProgress (wsOnProgress (wsOnProgress store task.id
        { state := TaskState.WORKING, text := "Generating script...",
          artifacts := some [], metadata := none } n1) task.id
        { state := TaskState.WORKING,
          text := "Script generated. Extracting characters, settings, and scenes...",
          artifacts := some scriptArtifacts, metadata := none } n2) task.id
        { state := TaskState.INPUT_REQUIRED,
          text := "Extracted " ++ toString nc ++ " characters, " ++ toString ns
            ++ " settings, and " ++ toString nsc ++ " scenes. Ready to generate images.",
          artifacts := some scriptArtifacts,
          metadata := some { currentStep := some OrchestrationStep.GENERATE_IMAGES } } n3).tasks
      task.id).map (fun t => (t.artifacts, t.metadata.currentStep))
    = some (scriptArtifacts, some OrchestrationStep.GENERATE_IMAGES)
  rw [g3.1]
  rfl

/-- C6 witness: the amended theorem applied at a concrete store holding a task with
the accepted song artifact. -/
theorem scriptStep_replaces_persisted_artifacts_witness :
    (let c : Task :=
       { id := "t1"
         status := { state := TaskState.INPUT_REQUIRED, timestamp := "ts0", message := none }
         message := none
         metadata := { currentStep := some OrchestrationStep.GENERATE_SCRIPT_AND_EXTRACT_ENTITIES
                       statusHistory := [] }
         artifacts := ["song0"]
         history := [HistoryItem.message
           { role := "user", parts := [{ ptype := "text", text := "make a song" }] }] }
     let store0 := (TaskStore.createTask (TaskStore.empty Unit) c).1
     mapGet store0.tasks c.id = some c
     ∧ c.id = c.id
     ∧ ((stepGenerateScriptAndExtractEntities c store0 ["script0"] 2 3 4 "ts1" "ts2" "ts3").1.artifacts
           = c.artifacts ++ ["script0"]
       ∧ (mapGet (stepGenerateScriptAndExtractEntities c store0 ["script0"] 2 3 4 "ts1" "ts2" "ts3").2.tasks
             c.id).map (fun t => (t.artifacts, t.metadata.currentStep))
           = some (["script0"], some OrchestrationStep.GENERATE_IMAGES))) := by
  refine ⟨by rfl, rfl, ?_⟩
  exact scriptStep_replaces_persisted_artifacts Unit _ _ _ ["script0"] 2 3 4 "ts1" "ts2" "ts3"
    (by rfl) rfl

/-- C6 counterexample: starting from a persisted task whose artifacts are the
accepted song `["song0"]`, the script step with script artifacts `["script0"]`
leaves the persisted record with artifacts `["script0"]` — not
`["song0", "script0"]`: the song artifact is not retained with the script artifacts
appended after it. -/
theorem scriptStep_drops_song_artifact_cex :
    (let c : Task :=
       { id := "t1"
         status := { state := TaskState.INPUT_REQUIRED, timestamp := "ts0", message := none }
         message := none
         metadata := { currentStep := some OrchestrationStep.GENERATE_SCRIPT_AND_EXTRACT_ENTITIES
                       statusHistory := [] }
         artifacts := ["song0"]
         history := [HistoryItem.message
           { role := "user", parts := [{ ptype := "text", text := "make a song" }] }] }
     let store0 := (TaskStore.createTask (TaskStore.empty Unit) c).1
     (mapGet (stepGenerateScriptAndExtractEntities c store0 ["script0"] 1 1 1 "ts1" "ts2" "ts3").2.tasks
         "t1").map (fun t => t.artifacts)
       = some ["script0"])
    ∧ some ["script0"] ≠ some (["song0"] ++ ["script0"]) := by
  exact ⟨by rfl, by decide⟩

/-- C4 (amended): the feedback path performs no terminal-state check: a feedback
message addressed to a task in a terminal state is not rejected — the message is
appended to the task's history and persisted before the feedback cycle continues.
When the task's `currentStep` is outside the five generation steps the subsequent
dispatch then fails with the unknown-step error (JSON-RPC `-32001`), but the
history mutation has already been persisted. -/
theorem wsFeedback_terminal_not_rejected :
    ∀ (L : Type) (store : TaskStore L) (task : Task) (m : Message)
      (d : FeedbackDecision)
      (runStep : Task → Option String → TaskStore L → TaskStore L × Option String),
      mapGet store.tasks task.id = some task →
      task.status.state.isTerminal = true →
      m.role = "user" →
      task.metadata.currentStep ∉ OrchestrationStep.generationSteps.map some →
      handleTasksSendExisting store task.id m d runStep
          = ((TaskStore.updateTask store
                { task with history := task.history ++ [HistoryItem.message m] }).1,
             WsReply.failedToProcess (unknownStepMessage task.metadata.currentStep))
      ∧ mapGet (handleTasksSendExisting store task.id m d runStep).1.tasks task.id
          = some { task with history := task.history ++ [HistoryItem.message m] } := by
  intro L store task m d runStep hlook hterm hrole hnot
  simp only [OrchestrationStep.generationSteps, List.map_cons, List.map_nil,
    List.mem_cons, List.not_mem_nil, or_false, not_or] at hnot
  obtain ⟨h1, h2, h3, h4, h5⟩ := hnot
  have hfu : handleUserFeedback { task with history := task.history ++ [HistoryItem.message m] } d
      = Except.ok ({ task with history := task.history ++ [HistoryItem.message m] },
          some { step := task.metadata.currentStep, overrideInput := none }) := by
    simp [handleUserFeedback, HistoryItem.isUser, hrole, Option.or, h1, h2, h3, h4, h5]
  have main : handleTasksSendExisting store task.id m d runStep
      = ((TaskStore.updateTask store
            { task with history := task.history ++ [HistoryItem.message m] }).1,
         WsReply.failedToProcess (unknownStepMessage task.metadata.currentStep)) := by
    simp [handleTasksSendExisting, hlook, hfu, continueOrchestrationBranch, h1, h2]
  refine ⟨main, ?_⟩
  rw [main]
  exact mapSet_get_self store.tasks task.id _

/-- C4 witness: the amended theorem applied at a store holding a CANCELLED task. -/
theorem wsFeedback_terminal_not_rejected_witness :
    (let c : Task :=
       { id := "t1"
         status := { state := TaskState.CANCELLED, timestamp := "ts0", message := none }
         message := none
         metadata := { currentStep := none, statusHistory := [] }
         artifacts := []
         history := [] }
     let store0 := (TaskStore.createTask (TaskStore.empty Unit) c).1
     let m : Message := { role := "user", parts := [{ ptype := "text", text := "hello" }] }
     mapGet store0.tasks c.id = some c
     ∧ c.status.state.isTerminal = true
     ∧ m.role = "user"
     ∧ c.metadata.currentStep ∉ OrchestrationStep.generationSteps.map some
     ∧ (handleTasksSendExisting store0 c.id m { action := "accept", newInput := none }
            (fun _ _ st => (st, none))
          = ((TaskStore.updateTask store0
                { c with history := c.history ++ [HistoryItem.message m] }).1,
             WsReply.failedToProcess (unknownStepMessage c.metadata.currentStep))
       ∧ mapGet (handleTasksSendExisting store0 c.id m { action := "accept", newInput := none }
            (fun _ _ st => (st, none))).1.tasks c.id
          = some { c with history := c.history ++ [HistoryItem.message m] })) := by
  refine ⟨by rfl, rfl, rfl, by decide, ?_⟩
  exact wsFeedback_terminal_not_rejected Unit _ _ _ _ _ (by rfl) rfl rfl (by decide)

/-- C4 counterexample: a feedback message addressed to a COMPLETED task is not a
no-op — the persisted record's history grows from one entry to two (the inbound
message is appended and persisted), even though the task is terminal; the reply is
the `-32001` unknown-step failure, after the mutation. -/
theorem wsFeedback_mutates_terminal_cex :
    (let c : Task :=
       { id := "t1"
         status := { state := TaskState.COMPLETED, timestamp := "ts0", message := none }
         message := none
         metadata := { currentStep := some OrchestrationStep.COMPLETED, statusHistory := [] }
         artifacts := ["final0"]
         history := [HistoryItem.message
           { role := "user", parts := [{ ptype := "text", text := "hi" }] }] }
     let store0 := (TaskStore.createTask (TaskStore.empty Unit) c).1
     let res := handleTasksSendExisting store0 "t1"
       { role := "user", parts := [{ ptype := "text", text := "thanks" }] }
       { action := "accept", newInput := none } (fun _ _ st => (st, none))
     c.status.state.isTerminal = true
     ∧ c.history.length = 1
     ∧ (mapGet res.1.tasks "t1").map (fun t => t.history.length) = some 2
     ∧ res.2 = WsReply.failedToProcess "Unknown orchestration step: completed") := by
  exact ⟨rfl, rfl, by rfl, by rfl⟩

end MVO
